import Mathlib

/-!
# MOSFET cross-section visualisation: device model, sweep axes, chart state

Shallow embedding of `src/js/script.js`.

JavaScript numbers are modelled as exact rationals (`ℚ`): every formula of the
script is a finite composition of `+ - * /`, `Math.max`, `Math.min`,
`Math.round` and comparisons, all of which are computable on `ℚ`.  Rounding
error of IEEE doubles is outside the model.  The square roots that size the two
depletion regions are not modelled; no statement below reads them.

Module-level mutable variables (`K`, `lambda`, `W_L`, the two chart objects, the
slider and switch values) are made explicit: functions that read them take them
as arguments, handlers thread a `Page` record.
-/

namespace Mosfet

/-! ## Constants (script.js lines 22-24, 243-245) -/

def VGS_MAX : ℚ := 3.0
def VDS_MAX : ℚ := 3.0
def VTH : ℚ := 0.5
def ch_max_height : ℚ := 200
def ch_pinchoff_shift_max : ℚ := 0.5

def Plot_mu_n : ℚ := 50e-4
def Plot_Cox : ℚ := 8e-3
def Plot_Vth : ℚ := VTH

/-- The function `clamp01` of line 240: `Math.max(0, Math.min(1, v))`. -/
def clamp01 (v : ℚ) : ℚ := max 0 (min 1 v)

/-! ## Device model -/

/-- The function `Id(Vgs, Vds)` of lines 331-339.  The module variables `K` and
`lambda` it reads are the first two arguments. -/
def Id (K lambda Vgs Vds : ℚ) : ℚ :=
  if Vgs ≤ Plot_Vth then 0
  else
    let Vdsat := Vgs - Plot_Vth
    if Vds ≤ Vdsat then
      K * ((Vgs - Plot_Vth) * Vds - 0.5 * Vds * Vds)
    else
      0.5 * K * (Vgs - Plot_Vth) ^ 2 * (1 + lambda * (Vds - Vdsat))

/-- Operating regions, the three values of `modeText`. -/
inductive Region
  | Cutoff
  | Linear
  | Saturation
  deriving DecidableEq, Repr

/-- The classification that `update_geometry` writes to the mode readout
(lines 141-149). -/
def modeText (Vgs Vds : ℚ) : Region :=
  if Vgs ≤ VTH then Region.Cutoff
  else if Vds < Vgs - VTH then Region.Linear
  else Region.Saturation

/-- Which `return` of `Id` is reached (lines 332, 334-338): the same tests as in
`Id`, with the returned expression replaced by the name of its branch. -/
def Id_branch (Vgs Vds : ℚ) : Region :=
  if Vgs ≤ Plot_Vth then Region.Cutoff
  else
    let Vdsat := Vgs - Plot_Vth
    if Vds ≤ Vdsat then Region.Linear
    else Region.Saturation

/-- The expression returned by the first (`Vds <= Vdsat`) branch of `Id`,
line 335. -/
def Id_linear_expr (K Vgs Vds : ℚ) : ℚ :=
  K * ((Vgs - Plot_Vth) * Vds - 0.5 * Vds * Vds)

/-- The expression returned by the `else` branch of `Id`, line 337, with
`Vdsat = Vgs - Plot_Vth`. -/
def Id_sat_expr (K lambda Vgs Vds : ℚ) : ℚ :=
  0.5 * K * (Vgs - Plot_Vth) ^ 2 * (1 + lambda * (Vds - (Vgs - Plot_Vth)))

/-- The spec's `drainCurrent`, written from the words of spec section 4.1 and
keyed on the region classification: 0 in Cutoff, the triode formula in Linear,
the channel-length-modulated square law in Saturation. -/
def spec_drainCurrent (K lambda Vgs Vds : ℚ) : ℚ :=
  match modeText Vgs Vds with
  | Region.Cutoff => 0
  | Region.Linear => K * ((Vgs - VTH) * Vds - 0.5 * Vds ^ 2)
  | Region.Saturation =>
      0.5 * K * (Vgs - VTH) ^ 2 * (1 + lambda * (Vds - (Vgs - VTH)))

/-! ## Plot parameters (lines 243-302) -/

/-- The method `Number.prototype.toFixed(0)` for magnitudes below `1e21`: the
sign, then the integer nearest to the magnitude, the larger one on a tie. -/
def toFixed0 (x : ℚ) : String :=
  if x < 0 then "-" ++ toString ⌊-x + 1 / 2⌋.toNat
  else toString ⌊x + 1 / 2⌋.toNat

/-- The module variables written by `updatePlotParameters`, together with the
text it puts in the W/L readout (`woverlValue.textContent`). -/
structure PlotParams where
  W_L : ℚ
  lambda : ℚ
  K : ℚ
  Plot_Idmax : ℚ
  woverlText : String
  deriving DecidableEq, Repr

/-- The function `updatePlotParameters(Length, Width)` of lines 254-302.  It
overwrites every module variable it touches, so its result depends on the two
arguments only. -/
def updatePlotParameters (Length Width : ℕ) : PlotParams :=
  let L : ℚ := if Length = 1 then 2 else 1
  let W : ℚ := if Width = 1 then 2 else 1
  let W_L : ℚ := 10 * (W / L)
  let ratio : ℚ := W / L
  let ratioText : String :=
    if ratio = 1 then "1"
    else if ratio = 0.5 then "½"
    else if ratio = 0.25 then "¼"
    else if ratio < 1 then "1/" ++ toFixed0 (L / W)
    else toFixed0 ratio
  let lambda : ℚ := if Length = 1 then 0.01 else 0.1
  let K : ℚ := 0.5 * Plot_mu_n * Plot_Cox * W_L
  { W_L := W_L, lambda := lambda, K := K, Plot_Idmax := 0.6, woverlText := ratioText }

/-- The length multiplier chosen by `Length` (line 258). -/
def lengthMultiplier (Length : ℕ) : ℚ := if Length = 1 then 2 else 1

/-- The width multiplier chosen by `Width` (line 259). -/
def widthMultiplier (Width : ℕ) : ℚ := if Width = 1 then 2 else 1

/-! ## Sweep axes (lines 343-344) -/

/-- The array built by `Array.from({ length: 301 }, (_, i) => i * 0.01 * 3)`. -/
def VGS : List ℚ := (List.range 301).map (fun (i : ℕ) => (i : ℚ) * 0.01 * 3)

/-- The array built by `Array.from({ length: 301 }, (_, i) => i * 0.01 * 3)`. -/
def VDS : List ℚ := (List.range 301).map (fun (i : ℕ) => (i : ℚ) * 0.01 * 3)

/-! ## Chart data (lines 381-474) -/

/-- A chart sample `{x, y}`.  `y = none` stands for `undefined`, the value an
out-of-range array read assigns. -/
structure Point where
  x : ℚ
  y : Option ℚ
  deriving DecidableEq, Repr

/-- The idiom `xs.map((v, i) => ({ x: v, y: ys[i] }))`. -/
def mapXY : List ℚ → List ℚ → List Point
  | [], _ => []
  | v :: vs, [] => ⟨v, none⟩ :: mapXY vs []
  | v :: vs, y :: ys => ⟨v, some y⟩ :: mapXY vs ys

/-- The idiom `data.forEach((pt, i) => (pt.y = ys[i]))`. -/
def assignY : List Point → List ℚ → List Point
  | [], _ => []
  | p :: ps, [] => { p with y := none } :: assignY ps []
  | p :: ps, y :: ys => { p with y := some y } :: assignY ps ys

/-- Data of the left chart: `datasets[0].data` (saturation envelope) and the
single point `datasets[1].data[0]` (Vgs marker). -/
structure ChartIdVgs where
  envelope : List Point
  marker : Point
  deriving DecidableEq, Repr

/-- Data of the right chart: `datasets[0].data` (saturation boundary),
`datasets[1].data` (Id-Vds curve) and the single point `datasets[2].data[0]`
(Vds marker). -/
structure ChartIdVds where
  boundary : List Point
  curve : List Point
  marker : Point
  deriving DecidableEq, Repr

structure Charts where
  chart_IdVgs : ChartIdVgs
  chart_IdVds : ChartIdVds
  deriving DecidableEq, Repr

/-- The function `initCharts` of lines 381-474, data only; `Vgs0`, `Vds0` are
the slider values it reads. -/
def initCharts (P : PlotParams) (Vgs0 Vds0 : ℚ) : Charts :=
  let IdsatArr := VGS.map (fun v => 0.5 * P.K * (max (v - Plot_Vth) 0) ^ 2 * 1e3)
  let Ids_sat_boundary := VDS.map (fun v => 0.5 * P.K * v * v * 1e3)
  let Ids_initial := VDS.map (fun v => Id P.K P.lambda Vgs0 v * 1e3)
  { chart_IdVgs :=
      { envelope := mapXY VGS IdsatArr
        marker := ⟨Vgs0, some (0.5 * P.K * (max (Vgs0 - Plot_Vth) 0) ^ 2 * 1e3)⟩ }
    chart_IdVds :=
      { boundary := mapXY VDS Ids_sat_boundary
        curve := mapXY VDS Ids_initial
        marker := ⟨Vds0, some (Id P.K P.lambda Vgs0 Vds0 * 1e3)⟩ } }

/-- The function `refreshAllPlots` of lines 304-326; `Vgs`, `Vds` are the slider
values it reads. -/
def refreshAllPlots (P : PlotParams) (Vgs Vds : ℚ) (c : Charts) : Charts :=
  let new_IdsatArr := VGS.map (fun v => 0.5 * P.K * (max (v - Plot_Vth) 0) ^ 2 * 1e3)
  let envelope := assignY c.chart_IdVgs.envelope new_IdsatArr
  let new_SatBoundary := VDS.map (fun v => 0.5 * P.K * v * v * 1e3)
  let boundary := assignY c.chart_IdVds.boundary new_SatBoundary
  let VdsArr := boundary.map (fun p => p.x)
  let Ids_new := VdsArr.map (fun v => Id P.K P.lambda Vgs v * 1e3)
  let curve := assignY c.chart_IdVds.curve Ids_new
  { chart_IdVgs :=
      { envelope := envelope
        marker := { c.chart_IdVgs.marker with
          y := some (0.5 * P.K * (max (Vgs - Plot_Vth) 0) ^ 2 * 1e3) } }
    chart_IdVds :=
      { boundary := boundary
        curve := curve
        marker := { c.chart_IdVds.marker with y := some (Id P.K P.lambda Vgs Vds * 1e3) } } }

/-- The function `Math.round`: nearest integer, the larger one on a tie. -/
def Math_round (x : ℚ) : ℤ := ⌊x + 1 / 2⌋

/-- The function `updateCharts(evt)` of lines 477-507; `evtTargetId` is
`evt?.target?.id` (`none` when the call passes no event). -/
def updateCharts (P : PlotParams) (Vgs Vds : ℚ) (evtTargetId : Option String)
    (c : Charts) : Charts :=
  let step : ℚ := 3 / 300
  let Vgs_rounded : ℚ := (Math_round (Vgs / step) : ℚ) * step
  let Id_value := 0.5 * P.K * (max (Vgs_rounded - Plot_Vth) 0) ^ 2 * 1e3
  let left : ChartIdVgs := { c.chart_IdVgs with marker := ⟨Vgs_rounded, some Id_value⟩ }
  if evtTargetId = some "vdsSlider" then
    let Id_marker := Id P.K P.lambda Vgs Vds * 1e3
    { chart_IdVgs := left
      chart_IdVds := { c.chart_IdVds with marker := ⟨Vds, some Id_marker⟩ } }
  else
    let VdsArr := c.chart_IdVds.boundary.map (fun p => p.x)
    let Ids_new := VdsArr.map (fun v => Id P.K P.lambda Vgs v * 1e3)
    let Id_marker := Id P.K P.lambda Vgs Vds * 1e3
    { chart_IdVgs := left
      chart_IdVds :=
        { boundary := c.chart_IdVds.boundary
          curve := assignY c.chart_IdVds.curve Ids_new
          marker := ⟨Vds, some Id_marker⟩ } }

/-! ## Channel geometry (lines 119-230) -/

/-- Result of `getBBox()`. -/
structure Box where
  x : ℚ
  y : ℚ
  width : ℚ
  height : ℚ
  deriving DecidableEq, Repr

/-- The `d` attribute of the channel path: the value the SVG file came with,
the empty string, or the four-vertex polygon `M p1 L p2 L p3 L p4 Z`. -/
inductive PathD
  | initial
  | empty
  | quad (p1 p2 p3 p4 : ℚ × ℚ)
  deriving DecidableEq, Repr

/-- The function `getChannelLength` of lines 119-123; the argument is
`len_switch.checked`. -/
def getChannelLength (checked : Bool) : ℚ := if checked then 0.2 else 0.9

/-- The local `shorten` of `update_geometry` (line 131). -/
def shorten (len : ℚ) : ℚ := (1 - len) * 0.6

/-- The local `base_h` of `update_geometry` (line 190). -/
def base_h (Vgs : ℚ) : ℚ := ch_max_height * clamp01 ((Vgs - VTH) / (VGS_MAX - VTH))

/-- The channel-body part of `update_geometry` (lines 188-228): the value of the
channel path's `d` attribute after the call.  `ch` is the channel shape's
bounding box (`none` when `ch_path && ch_box` is falsy, in which case the
function returns without writing), `old` is the attribute's value before. -/
def update_geometry_channel (Vgs Vds len : ℚ) (ch : Option Box) (old : PathD) : PathD :=
  let shorten := shorten len
  let Vov := max 0 (Vgs - VTH)
  match ch with
  | none => old
  | some ch_box =>
    let base_h := base_h Vgs
    if base_h ≤ 0.1 then PathD.empty
    else
      let left := ch_box.x
      let top := ch_box.y
      let width_long := ch_box.width
      let width_eff := width_long * (1 - shorten)
      let src_left_x := left
      let src_top_y := top
      let src_bot_y := top + base_h
      let Vds_sat := Vov
      let clm_boost := 1 + (1 - len) * 1.8
      let rise : ℚ :=
        if Vds ≤ Vds_sat then
          let frac := if Vds_sat > 0 then clamp01 (Vds / Vds_sat) else 0
          base_h * frac
        else base_h
      let shift : ℚ :=
        if Vds ≤ Vds_sat then 0
        else
          let overshoot := (Vds - Vds_sat) / max 1e-6 (VDS_MAX - Vds_sat)
          let shift0 := clamp01 (overshoot * clm_boost) * ch_pinchoff_shift_max * width_long
          let pullback := clamp01 ((Vgs - VTH) / (VGS_MAX - VTH))
          shift0 * (1 - pullback)
      let extra_px : ℚ := if Vds ≤ Vds_sat then 5 else 0
      let drain_right_x := left + width_eff - shift + extra_px
      let drain_bot_y := src_top_y + base_h - rise
      PathD.quad (src_left_x, src_top_y) (left + width_eff + extra_px, src_top_y)
        (drain_right_x, drain_bot_y) (src_left_x, src_bot_y)

/-! ## Page state and event handlers (lines 45-107) -/

/-- Everything the handlers read or write that the statements below concern:
the two slider values, the two switches, the channel shape's bounding box and
`d` attribute, the plot parameters and the chart data. -/
structure Page where
  vgs : ℚ
  vds : ℚ
  lenChecked : Bool
  widthChecked : Bool
  ch_box : Option Box
  ch_d : PathD
  plot : PlotParams
  charts : Charts
  deriving DecidableEq, Repr

/-- The function `update_geometry` of lines 125-230, restricted to the channel
path.  Readouts and the other shapes' attributes are not part of `Page`. -/
def update_geometry (s : Page) : Page :=
  { s with
    ch_d := update_geometry_channel s.vgs s.vds (getChannelLength s.lenChecked) s.ch_box s.ch_d }

/-- The `input` listener of both sliders (lines 63-68); `targetId` is the id of
the slider that fired. -/
def onSliderInput (targetId : String) (s : Page) : Page :=
  let s1 := update_geometry s
  { s1 with charts := updateCharts s1.plot s1.vgs s1.vds (some targetId) s1.charts }

/-- The `change` listener of the length switch (lines 70-80) and, up to the
width readout, of the width switch (lines 82-93). -/
def onSwitchChange (s : Page) : Page :=
  let s1 := update_geometry s
  let Length := if s1.lenChecked then 0 else 1
  let Width := if s1.widthChecked then 1 else 0
  let P := updatePlotParameters Length Width
  let c1 := refreshAllPlots P s1.vgs s1.vds s1.charts
  { s1 with plot := P, charts := updateCharts P s1.vgs s1.vds none c1 }

/-- The tail of the `load` listener (lines 98-105), from the control values and
the channel shape found in the document. -/
def onLoad (vgs vds : ℚ) (lenChecked widthChecked : Bool) (ch_box : Option Box) : Page :=
  let Length := if lenChecked then 0 else 1
  let Width := if widthChecked then 1 else 0
  let P := updatePlotParameters Length Width
  let c0 := initCharts P vgs vds
  let c1 := refreshAllPlots P vgs vds c0
  let s1 : Page := update_geometry
    { vgs := vgs, vds := vds, lenChecked := lenChecked, widthChecked := widthChecked
      ch_box := ch_box, ch_d := PathD.initial, plot := P, charts := c1 }
  { s1 with charts := updateCharts P vgs vds none s1.charts }

/-- User events: a slider moved to a new value, or a switch flipped. -/
inductive Event
  | vgsInput (v : ℚ)
  | vdsInput (v : ℚ)
  | lenToggle
  | widthToggle
  deriving DecidableEq, Repr

/-- The browser updates the control, then runs its listener. -/
def step (s : Page) : Event → Page
  | Event.vgsInput v => onSliderInput "vgsSlider" { s with vgs := v }
  | Event.vdsInput v => onSliderInput "vdsSlider" { s with vds := v }
  | Event.lenToggle => onSwitchChange { s with lenChecked := !s.lenChecked }
  | Event.widthToggle => onSwitchChange { s with widthChecked := !s.widthChecked }

/-- The page after a sequence of events. -/
def run (s : Page) (events : List Event) : Page := events.foldl step s

/-- Consistency of chart data with plot parameters `P` and slider values `Vgs`,
`Vds`: the x-samples of the three series are the sweep axes; every sample of the
envelope is `1000 * 0.5 * K * max(x - Vth, 0)^2` and every sample of the
saturation boundary is `1000 * 0.5 * K * x^2`; every sample of the Id-Vds curve
is `1000 * Id(Vgs, x)`; the Vds marker is `(Vds, 1000 * Id(Vgs, Vds))`. -/
def ChartsOK (P : PlotParams) (Vgs Vds : ℚ) (c : Charts) : Prop :=
  c.chart_IdVgs.envelope.map (fun p => p.x) = VGS ∧
  c.chart_IdVds.boundary.map (fun p => p.x) = VDS ∧
  c.chart_IdVds.curve.map (fun p => p.x) = VDS ∧
  (∀ p ∈ c.chart_IdVgs.envelope,
    p.y = some (1000 * 0.5 * P.K * (max (p.x - Plot_Vth) 0) ^ 2)) ∧
  (∀ p ∈ c.chart_IdVds.boundary, p.y = some (1000 * 0.5 * P.K * p.x ^ 2)) ∧
  (∀ p ∈ c.chart_IdVds.curve, p.y = some (1000 * Id P.K P.lambda Vgs p.x)) ∧
  c.chart_IdVds.marker = ⟨Vds, some (1000 * Id P.K P.lambda Vgs Vds)⟩

/-- Chart consistency of a page: the plot parameters are those of the current
switch setting, and the chart data are consistent with them and with the
current slider values. -/
def ChartsConsistent (s : Page) : Prop :=
  s.plot = updatePlotParameters (if s.lenChecked then 0 else 1) (if s.widthChecked then 1 else 0) ∧
  ChartsOK s.plot s.vgs s.vds s.charts

instance (s : Page) : Decidable (ChartsConsistent s) := by
  unfold ChartsConsistent ChartsOK
  infer_instance

/-! ## Helper lemmas on the device model -/

theorem Id_eq_branch_expr (K lambda Vgs Vds : ℚ) :
    Id K lambda Vgs Vds =
      match Id_branch Vgs Vds with
      | Region.Cutoff => 0
      | Region.Linear => Id_linear_expr K Vgs Vds
      | Region.Saturation => Id_sat_expr K lambda Vgs Vds := by
  unfold Id Id_branch Id_linear_expr Id_sat_expr
  by_cases h1 : Vgs ≤ Plot_Vth
  · simp [h1]
  · by_cases h2 : Vds ≤ Vgs - Plot_Vth
    · simp [h1, h2]
    · simp [h1, h2]


/-! ## Helper lemmas on series -/

theorem mapXY_map (f : ℚ → ℚ) (xs : List ℚ) :
    mapXY xs (xs.map f) = xs.map (fun v => (⟨v, some (f v)⟩ : Point)) := by
  induction xs with
  | nil => rfl
  | cons v vs ih => simp [mapXY, ih]

theorem assignY_map (f : ℚ → ℚ) (ps : List Point) :
    assignY ps ((ps.map (fun p => p.x)).map f)
      = ps.map (fun p => (⟨p.x, some (f p.x)⟩ : Point)) := by
  induction ps with
  | nil => rfl
  | cons p ps ih =>
    simp only [List.map_cons, assignY]
    rw [ih]

theorem assignY_xs (ps : List Point) (ys : List ℚ) :
    (assignY ps ys).map (fun p => p.x) = ps.map (fun p => p.x) := by
  induction ps generalizing ys with
  | nil => rfl
  | cons p ps ih =>
    cases ys with
    | nil => simp [assignY, ih]
    | cons y ys => simp [assignY, ih]

theorem map_point_xs (f : ℚ → ℚ) (ps : List Point) :
    (ps.map (fun p => (⟨p.x, some (f p.x)⟩ : Point))).map (fun p => p.x)
      = ps.map (fun p => p.x) := by
  simp [List.map_map, Function.comp_def]

theorem mem_map_point_y (f : ℚ → ℚ) (ps : List Point) (q : Point)
    (h : q ∈ ps.map (fun p => (⟨p.x, some (f p.x)⟩ : Point))) : q.y = some (f q.x) := by
  rcases List.mem_map.mp h with ⟨p, _, rfl⟩
  rfl

theorem mem_VGS_iff (v : ℚ) : v ∈ VGS ↔ ∃ i : ℕ, i < 301 ∧ v = (i : ℚ) * 0.01 * 3 := by
  unfold VGS
  constructor
  · intro h
    rcases List.mem_map.mp h with ⟨i, hi, rfl⟩
    exact ⟨i, List.mem_range.mp hi, rfl⟩
  · rintro ⟨i, hi, rfl⟩
    exact List.mem_map.mpr ⟨i, List.mem_range.mpr hi, rfl⟩

/-! ## Theorems on the device model -/

/-- C1: for every `Vgs`, `Vds`, `K`, `lambda` the value of `Id` is the spec's
piecewise definition keyed on the region (0 in Cutoff, triode formula in
Linear, modulated square law in Saturation, with the boundary `Vds = Vgs - Vth`
counted as Saturation), and the three scenario inputs evaluate as stated. -/
theorem Id_eq_spec_drainCurrent :
    (∀ K lambda Vgs Vds : ℚ, Id K lambda Vgs Vds = spec_drainCurrent K lambda Vgs Vds) ∧
    (∀ K lambda : ℚ, modeText 0.5 1.0 = Region.Cutoff ∧ Id K lambda 0.5 1.0 = 0) ∧
    (∀ K lambda : ℚ, modeText 1.5 0.3 = Region.Linear ∧
        Id K lambda 1.5 0.3 = K * (1.0 * 0.3 - 0.5 * 0.09)) ∧
    (∀ K : ℚ, modeText 1.5 2.0 = Region.Saturation ∧
        Id K 0.01 1.5 2.0 = 0.5 * K * 1.0 ^ 2 * (1 + 0.01 * 1.0)) := by
  refine ⟨?_, ?_, ?_, ?_⟩
  · intro K lambda Vgs Vds
    unfold Id spec_drainCurrent modeText Plot_Vth
    by_cases h1 : Vgs ≤ VTH
    · simp only [if_pos h1]
    · by_cases h2 : Vds < Vgs - VTH
      · have h3 : Vds ≤ Vgs - VTH := le_of_lt h2
        simp only [if_neg h1, if_pos h2, if_pos h3]
        ring
      · by_cases h3 : Vds ≤ Vgs - VTH
        · have h4 : Vds = Vgs - VTH := le_antisymm h3 (not_lt.mp h2)
          simp only [if_neg h1, if_neg h2, if_pos h3]
          rw [h4]
          ring
        · simp only [if_neg h1, if_neg h2, if_neg h3]
  · intro K lambda
    constructor
    · norm_num [modeText, VTH]
    · norm_num [Id, Plot_Vth, VTH]
  · intro K lambda
    constructor
    · norm_num [modeText, VTH]
    · norm_num [Id, Plot_Vth, VTH]
  · intro K
    constructor
    · norm_num [modeText, VTH]
    · norm_num [Id, Plot_Vth, VTH]

/-- C2 (evaluation of the code): at `Vgs = 1.5`, `Vds = 1.0`, the boundary
`Vds = Vgs - VTH`, the mode readout of `update_geometry` is Saturation, while
`Id` returns from its linear-formula branch and the channel polygon drawn by the
same call of `update_geometry` is the Ohmic one (top-right vertex extended by
`extra_px = 5`: x = 10 + 94 + 5 = 109 for a box at x = 10 of width 100 and
length factor 0.9); so the readout and the branch of `Id` do not agree for every
pair. -/
theorem readout_disagrees_with_Id_branch_at_boundary :
    modeText 1.5 1.0 = Region.Saturation ∧ Id_branch 1.5 1.0 = Region.Linear ∧
    update_geometry_channel 1.5 1.0 0.9 (some ⟨10, 20, 100, 30⟩) PathD.initial
      = PathD.quad (10, 20) (109, 20) (109, 20) (10, 100) ∧
    ¬ (∀ Vgs Vds : ℚ, Id_branch Vgs Vds = modeText Vgs Vds) := by
  have h1 : modeText 1.5 1.0 = Region.Saturation := by
    norm_num [modeText, VTH]
  have h2 : Id_branch 1.5 1.0 = Region.Linear := by
    norm_num [Id_branch, Plot_Vth, VTH]
  refine ⟨h1, h2, ?_, ?_⟩
  · have hb : base_h 1.5 = 80 := by
      norm_num [base_h, clamp01, ch_max_height, VGS_MAX, VTH]
    have hv : max (0 : ℚ) (1.5 - VTH) = 1 := by
      norm_num [VTH]
    have hle : ¬ ((80 : ℚ) ≤ 0.1) := by norm_num
    have hds : ((1.0 : ℚ) ≤ 1) := by norm_num
    have hpos : ((1 : ℚ) > 0) := by norm_num
    have hc : clamp01 ((1.0 : ℚ) / 1) = 1 := by
      norm_num [clamp01]
    unfold update_geometry_channel
    simp only [hb, hv, if_neg hle, if_pos hds, if_pos hpos, hc, shorten]
    norm_num
  · intro h
    have h3 := h 1.5 1.0
    rw [h1, h2] at h3
    exact absurd h3 (by decide)

/-- C3: for every `Vgs > Vth` and every `K`, `lambda`, `Id` is the linear
expression for `Vds ≤ Vgs - Vth` and the saturation expression above it, and at
`Vds = Vgs - Vth` both expressions (and `Id` itself) evaluate to
`0.5 * K * (Vgs - Vth)^2`. -/
theorem Id_continuous_at_boundary (K lambda Vgs : ℚ) (h : Plot_Vth < Vgs) :
    (∀ Vds : ℚ, Id K lambda Vgs Vds =
        if Vds ≤ Vgs - Plot_Vth then Id_linear_expr K Vgs Vds
        else Id_sat_expr K lambda Vgs Vds) ∧
    Id_linear_expr K Vgs (Vgs - Plot_Vth) = 0.5 * K * (Vgs - Plot_Vth) ^ 2 ∧
    Id_sat_expr K lambda Vgs (Vgs - Plot_Vth) = 0.5 * K * (Vgs - Plot_Vth) ^ 2 ∧
    Id K lambda Vgs (Vgs - Plot_Vth) = 0.5 * K * (Vgs - Plot_Vth) ^ 2 := by
  have h1 : ¬ Vgs ≤ Plot_Vth := not_le.mpr h
  refine ⟨?_, ?_, ?_, ?_⟩
  · intro Vds
    unfold Id Id_linear_expr Id_sat_expr
    simp only [if_neg h1]
  · unfold Id_linear_expr
    ring
  · unfold Id_sat_expr
    ring
  · unfold Id
    simp only [if_neg h1, le_refl, if_true]
    ring

theorem Id_continuous_at_boundary_witness :
    Plot_Vth < (1.5 : ℚ) ∧ Id 1 0.01 1.5 (1.5 - Plot_Vth) = 0.5 * 1 * (1.5 - Plot_Vth) ^ 2 :=
  ⟨by norm_num [Plot_Vth, VTH],
   (Id_continuous_at_boundary 1 0.01 1.5 (by norm_num [Plot_Vth, VTH])).2.2.2⟩

/-- C4: for fixed `Vgs > Vth` and `K > 0`, `Id` is non-decreasing in `Vds` on the
Linear region `0 ≤ Vds < Vgs - Vth`, and when `lambda > 0` it is strictly
increasing in `Vds` on the Saturation region `Vds ≥ Vgs - Vth`. -/
theorem Id_monotone_in_Vds (K lambda Vgs : ℚ) (hV : Plot_Vth < Vgs) (hK : 0 < K) :
    (∀ Vds1 Vds2 : ℚ, 0 ≤ Vds1 → Vds1 ≤ Vds2 → Vds2 < Vgs - Plot_Vth →
        Id K lambda Vgs Vds1 ≤ Id K lambda Vgs Vds2) ∧
    (0 < lambda → ∀ Vds1 Vds2 : ℚ, Vgs - Plot_Vth ≤ Vds1 → Vds1 < Vds2 →
        Id K lambda Vgs Vds1 < Id K lambda Vgs Vds2) := by
  have h1 : ¬ Vgs ≤ Plot_Vth := not_le.mpr hV
  have hov : 0 < Vgs - Plot_Vth := sub_pos.mpr hV
  constructor
  · intro v1 v2 _ h12 h2
    have hv1 : v1 ≤ Vgs - Plot_Vth := le_trans h12 (le_of_lt h2)
    have hv2 : v2 ≤ Vgs - Plot_Vth := le_of_lt h2
    unfold Id
    simp only [if_neg h1, if_pos hv1, if_pos hv2]
    have key : 0 ≤ (v2 - v1) * ((Vgs - Plot_Vth - v1) + (Vgs - Plot_Vth - v2)) :=
      mul_nonneg (by linarith) (by linarith)
    have e : K * ((Vgs - Plot_Vth) * v2 - 0.5 * v2 * v2)
        - K * ((Vgs - Plot_Vth) * v1 - 0.5 * v1 * v1)
        = K * (0.5 * ((v2 - v1) * ((Vgs - Plot_Vth - v1) + (Vgs - Plot_Vth - v2)))) := by
      ring
    have hnn : 0 ≤ K * (0.5 * ((v2 - v1) * ((Vgs - Plot_Vth - v1) + (Vgs - Plot_Vth - v2)))) :=
      mul_nonneg (le_of_lt hK) (mul_nonneg (by norm_num) key)
    linarith
  · intro hl v1 v2 h1v h12
    have hv2 : ¬ v2 ≤ Vgs - Plot_Vth := not_le.mpr (lt_of_le_of_lt h1v h12)
    have hc : 0 < 0.5 * K * (Vgs - Plot_Vth) ^ 2 :=
      mul_pos (mul_pos (by norm_num) hK) (pow_pos hov 2)
    have hrhs : 0.5 * K * (Vgs - Plot_Vth) ^ 2 * (1 + lambda * (v1 - (Vgs - Plot_Vth)))
        < 0.5 * K * (Vgs - Plot_Vth) ^ 2 * (1 + lambda * (v2 - (Vgs - Plot_Vth))) := by
      apply mul_lt_mul_of_pos_left _ hc
      have : lambda * (v1 - (Vgs - Plot_Vth)) < lambda * (v2 - (Vgs - Plot_Vth)) :=
        mul_lt_mul_of_pos_left (by linarith) hl
      linarith
    unfold Id
    simp only [if_neg h1, if_neg hv2]
    by_cases hv1 : v1 ≤ Vgs - Plot_Vth
    · have hv1e : v1 = Vgs - Plot_Vth := le_antisymm hv1 h1v
      simp only [if_pos hv1]
      have e : K * ((Vgs - Plot_Vth) * v1 - 0.5 * v1 * v1)
          = 0.5 * K * (Vgs - Plot_Vth) ^ 2 * (1 + lambda * (v1 - (Vgs - Plot_Vth))) := by
        rw [hv1e]
        ring
      rw [e]
      exact hrhs
    · simp only [if_neg hv1]
      exact hrhs

theorem Id_monotone_in_Vds_witness :
    Plot_Vth < (1.5 : ℚ) ∧ (0 : ℚ) < 1 ∧
    Id 1 0.01 1.5 0.2 ≤ Id 1 0.01 1.5 0.3 ∧ Id 1 0.01 1.5 1.0 < Id 1 0.01 1.5 2.0 :=
  ⟨by norm_num [Plot_Vth, VTH], by norm_num,
   (Id_monotone_in_Vds 1 0.01 1.5 (by norm_num [Plot_Vth, VTH]) (by norm_num)).1 0.2 0.3
     (by norm_num) (by norm_num) (by norm_num [Plot_Vth, VTH]),
   (Id_monotone_in_Vds 1 0.01 1.5 (by norm_num [Plot_Vth, VTH]) (by norm_num)).2
     (by norm_num) 1.0 2.0 (by norm_num [Plot_Vth, VTH]) (by norm_num)⟩

/-! ## Theorems on the sweep axes, plot parameters and geometry -/

/-- C5 (evaluation of the code): both sweep axes have 301 samples, the `i`-th
being `i * 0.03`; the sample after 0 is 0.03 and the last sample is 9, not 3,
so the axes sweep `[0, 9]` with step 0.03 rather than `[0, 3]` with step
`3/300`. -/
theorem sweep_axes_step_and_last :
    VGS.length = 301 ∧ VDS.length = 301 ∧
    (∀ i : Fin 301, VGS[(i : ℕ)]? = some ((i : ℚ) * 0.03) ∧
        VDS[(i : ℕ)]? = some ((i : ℚ) * 0.03)) ∧
    VGS[(1 : ℕ)]? = some (0.03 : ℚ) ∧ VGS[(300 : ℕ)]? = some (9 : ℚ) ∧
    VDS[(300 : ℕ)]? = some (9 : ℚ) ∧
    VGS[(300 : ℕ)]? ≠ some ((300 : ℚ) * (3 / 300)) := by
  have hget : ∀ i : ℕ, i < 301 → VGS[i]? = some ((i : ℚ) * 0.03) := by
    intro i hi
    unfold VGS
    rw [List.getElem?_map, List.getElem?_range hi]
    simp only [Option.map_some']
    congr 1
    ring
  have hgetD : ∀ i : ℕ, i < 301 → VDS[i]? = some ((i : ℚ) * 0.03) := hget
  refine ⟨by simp [VGS], by simp [VDS], ?_, ?_, ?_, ?_, ?_⟩
  · intro i
    exact ⟨hget i i.isLt, hgetD i i.isLt⟩
  · rw [hget 1 (by norm_num)]
    norm_num
  · rw [hget 300 (by norm_num)]
    norm_num
  · rw [hgetD 300 (by norm_num)]
    norm_num
  · rw [hget 300 (by norm_num)]
    norm_num

/-- C9 (as stated, refuted): for a long, narrow device (`Length = 1`,
`Width = 0`) the readout shows the ratio one half, yet `K` is not
`0.5 * Plot_mu_n * Plot_Cox * (1/2)`: it is ten times that. -/
theorem gain_factor_not_plain_ratio :
    widthMultiplier 0 / lengthMultiplier 1 = 1 / 2 ∧
    (updatePlotParameters 1 0).woverlText = "½" ∧
    (updatePlotParameters 1 0).K = 1 / 10000 ∧
    0.5 * Plot_mu_n * Plot_Cox * (widthMultiplier 0 / lengthMultiplier 1) = 1 / 100000 ∧
    (updatePlotParameters 1 0).K
      ≠ 0.5 * Plot_mu_n * Plot_Cox * (widthMultiplier 0 / lengthMultiplier 1) := by
  refine ⟨?_, ?_, ?_, ?_, ?_⟩
  · norm_num [widthMultiplier, lengthMultiplier]
  · norm_num [updatePlotParameters]
  · norm_num [updatePlotParameters, Plot_mu_n, Plot_Cox]
  · norm_num [widthMultiplier, lengthMultiplier, Plot_mu_n, Plot_Cox]
  · norm_num [updatePlotParameters, widthMultiplier, lengthMultiplier, Plot_mu_n, Plot_Cox]

/-- C9 (amended): for every selector setting, after
`updatePlotParameters(Length, Width)` the stored ratio is `W_L = 10 * (W / L)`
and the gain factor is `K = 0.5 * Plot_mu_n * Plot_Cox * W_L`, that is
`0.5 * Plot_mu_n * Plot_Cox * 10 * (W / L)`, with `W` the width multiplier (1 or
2) and `L` the length multiplier (1 or 2); the quotient `W / L` is one of 1/2, 1,
2 and it is the ratio the W/L readout shows (the texts one half, 1 and 2). -/
theorem gain_factor_ten_times_ratio (Length Width : ℕ) :
    (updatePlotParameters Length Width).W_L
      = 10 * (widthMultiplier Width / lengthMultiplier Length) ∧
    (updatePlotParameters Length Width).K
      = 0.5 * Plot_mu_n * Plot_Cox * (updatePlotParameters Length Width).W_L ∧
    (updatePlotParameters Length Width).K
      = 0.5 * Plot_mu_n * Plot_Cox * 10 * (widthMultiplier Width / lengthMultiplier Length) ∧
    (lengthMultiplier Length = (if Length = 1 then 2 else 1)) ∧
    (widthMultiplier Width = (if Width = 1 then 2 else 1)) ∧
    ((widthMultiplier Width / lengthMultiplier Length = 1 / 2 ∧
        (updatePlotParameters Length Width).woverlText = "½") ∨
      (widthMultiplier Width / lengthMultiplier Length = 1 ∧
        (updatePlotParameters Length Width).woverlText = "1") ∨
      (widthMultiplier Width / lengthMultiplier Length = 2 ∧
        (updatePlotParameters Length Width).woverlText = "2")) := by
  refine ⟨rfl, rfl, ?_, rfl, rfl, ?_⟩
  · unfold updatePlotParameters widthMultiplier lengthMultiplier
    simp only
    ring
  · have hfix : toFixed0 2 = "2" := by
      have hf : ⌊(2 : ℚ) + 1 / 2⌋ = 2 := by
        rw [Int.floor_eq_iff]
        norm_num
      unfold toFixed0
      rw [if_neg (by norm_num), hf]
      rfl
    unfold updatePlotParameters widthMultiplier lengthMultiplier
    by_cases hL : Length = 1
    · by_cases hW : Width = 1
      · right
        left
        simp only [if_pos hL, if_pos hW]
        norm_num
      · left
        simp only [if_pos hL, if_neg hW]
        norm_num
    · by_cases hW : Width = 1
      · right
        right
        simp only [if_neg hL, if_pos hW]
        norm_num
        exact hfix
      · right
        left
        simp only [if_neg hL, if_neg hW]
        norm_num

/-- C10: for every `Vgs ≤ VTH`, every `Vds`, every length factor and every
bounding box of a present channel shape, `base_h` is 0 and `update_geometry`
sets the channel path to the empty string; and for every length factor in
`[0, 1]` the shrink factor `shorten` lies in `[0, 0.6]`. -/
theorem cutoff_channel_empty_and_shorten_range :
    (∀ (Vgs Vds len : ℚ) (box : Box) (old : PathD), Vgs ≤ VTH →
        base_h Vgs = 0 ∧ update_geometry_channel Vgs Vds len (some box) old = PathD.empty) ∧
    (∀ (s : Page) (box : Box), s.ch_box = some box → s.vgs ≤ VTH →
        (update_geometry s).ch_d = PathD.empty) ∧
    (∀ len : ℚ, 0 ≤ len → len ≤ 1 → 0 ≤ shorten len ∧ shorten len ≤ 0.6) := by
  have hb : ∀ Vgs : ℚ, Vgs ≤ VTH → base_h Vgs = 0 := by
    intro Vgs h
    unfold base_h clamp01
    have hden : (0 : ℚ) < VGS_MAX - VTH := by norm_num [VGS_MAX, VTH]
    have hq : (Vgs - VTH) / (VGS_MAX - VTH) ≤ 0 :=
      div_nonpos_of_nonpos_of_nonneg (sub_nonpos.mpr h) (le_of_lt hden)
    have hmin : min 1 ((Vgs - VTH) / (VGS_MAX - VTH)) ≤ 0 := le_trans (min_le_right _ _) hq
    rw [max_eq_left hmin]
    ring
  have hc : ∀ (Vgs Vds len : ℚ) (box : Box) (old : PathD), Vgs ≤ VTH →
      update_geometry_channel Vgs Vds len (some box) old = PathD.empty := by
    intro Vgs Vds len box old h
    unfold update_geometry_channel
    simp only [hb Vgs h]
    rw [if_pos (by norm_num)]
  refine ⟨fun Vgs Vds len box old h => ⟨hb Vgs h, hc Vgs Vds len box old h⟩, ?_, ?_⟩
  · intro s box hbox h
    unfold update_geometry
    simp only [hbox]
    exact hc _ _ _ _ _ h
  · intro len h0 h1
    unfold shorten
    constructor
    · exact mul_nonneg (by linarith) (by norm_num)
    · nlinarith

theorem cutoff_channel_empty_and_shorten_range_witness :
    (0.3 : ℚ) ≤ VTH ∧ base_h 0.3 = 0 ∧
    update_geometry_channel 0.3 1 0.9 (some ⟨10, 20, 100, 30⟩) PathD.initial = PathD.empty ∧
    (0 : ℚ) ≤ 0.9 ∧ (0.9 : ℚ) ≤ 1 ∧ 0 ≤ shorten 0.9 ∧ shorten 0.9 ≤ 0.6 :=
  ⟨by norm_num [VTH],
   (cutoff_channel_empty_and_shorten_range.1 0.3 1 0.9 ⟨10, 20, 100, 30⟩ PathD.initial
      (by norm_num [VTH])).1,
   (cutoff_channel_empty_and_shorten_range.1 0.3 1 0.9 ⟨10, 20, 100, 30⟩ PathD.initial
      (by norm_num [VTH])).2,
   by norm_num, by norm_num,
   (cutoff_channel_empty_and_shorten_range.2.2 0.9 (by norm_num) (by norm_num)).1,
   (cutoff_channel_empty_and_shorten_range.2.2 0.9 (by norm_num) (by norm_num)).2⟩

/-! ## Theorems on the chart state -/

/-- C7: for every page state and every new slider value `Vds`, handling the
Vds-slider input event (and likewise any call of `updateCharts` whose event
target is `vdsSlider`) sets the Vds marker to `(Vds, 1000 * Id(Vgs, Vds))` and
leaves the Id-Vds curve series and the saturation-boundary series unchanged. -/
theorem vds_input_moves_marker_only :
    (∀ (s : Page) (Vds : ℚ),
      (step s (Event.vdsInput Vds)).charts.chart_IdVds.marker
        = ⟨Vds, some (1000 * Id s.plot.K s.plot.lambda s.vgs Vds)⟩ ∧
      (step s (Event.vdsInput Vds)).charts.chart_IdVds.curve = s.charts.chart_IdVds.curve ∧
      (step s (Event.vdsInput Vds)).charts.chart_IdVds.boundary
        = s.charts.chart_IdVds.boundary) ∧
    (∀ (P : PlotParams) (Vgs Vds : ℚ) (c : Charts),
      (updateCharts P Vgs Vds (some "vdsSlider") c).chart_IdVds.marker
        = ⟨Vds, some (1000 * Id P.K P.lambda Vgs Vds)⟩ ∧
      (updateCharts P Vgs Vds (some "vdsSlider") c).chart_IdVds.curve = c.chart_IdVds.curve ∧
      (updateCharts P Vgs Vds (some "vdsSlider") c).chart_IdVds.boundary
        = c.chart_IdVds.boundary) := by
  have h : ∀ (P : PlotParams) (Vgs Vds : ℚ) (c : Charts),
      (updateCharts P Vgs Vds (some "vdsSlider") c).chart_IdVds.marker
        = ⟨Vds, some (1000 * Id P.K P.lambda Vgs Vds)⟩ ∧
      (updateCharts P Vgs Vds (some "vdsSlider") c).chart_IdVds.curve = c.chart_IdVds.curve ∧
      (updateCharts P Vgs Vds (some "vdsSlider") c).chart_IdVds.boundary
        = c.chart_IdVds.boundary := by
    intro P Vgs Vds c
    have hm : (updateCharts P Vgs Vds (some "vdsSlider") c).chart_IdVds
        = { c.chart_IdVds with marker := ⟨Vds, some (Id P.K P.lambda Vgs Vds * 1e3)⟩ } := by
      unfold updateCharts
      rw [if_pos rfl]
    rw [hm]
    refine ⟨?_, rfl, rfl⟩
    have e : Id P.K P.lambda Vgs Vds * 1e3 = 1000 * Id P.K P.lambda Vgs Vds := by
      norm_num
      ring
    simp only [e]
  refine ⟨?_, h⟩
  intro s Vds
  exact h s.plot s.vgs Vds s.charts

/-- C8 (evaluation of the code): with the Vgs slider at 0.1, `updateCharts`
puts the Vgs marker at x = 0.1, which is not an element of `VGS`; the elements
of `VGS` nearest to 0.1 are 0.09 and 0.12. -/
theorem Vgs_marker_off_sweep_grid (P : PlotParams) (Vds : ℚ) (evt : Option String)
    (c : Charts) :
    (updateCharts P 0.1 Vds evt c).chart_IdVgs.marker.x = 0.1 ∧
    (0.1 : ℚ) ∉ VGS ∧ (0.09 : ℚ) ∈ VGS ∧ (0.12 : ℚ) ∈ VGS := by
  refine ⟨?_, ?_, ?_, ?_⟩
  · have hr : Math_round ((0.1 : ℚ) / (3 / 300)) = 10 := by
      unfold Math_round
      rw [Int.floor_eq_iff]
      norm_num
    unfold updateCharts
    by_cases he : evt = some "vdsSlider"
    · simp only [if_pos he, hr]
      norm_num
    · simp only [if_neg he, hr]
      norm_num
  · intro h
    rcases (mem_VGS_iff _).mp h with ⟨i, _, hi⟩
    have h2 : ((3 * i : ℕ) : ℚ) = ((10 : ℕ) : ℚ) := by
      push_cast
      linarith
    have h3 : 3 * i = 10 := by exact_mod_cast h2
    omega
  · exact (mem_VGS_iff _).mpr ⟨3, by norm_num, by norm_num⟩
  · exact (mem_VGS_iff _).mpr ⟨4, by norm_num, by norm_num⟩

/-! ## Helper lemmas on chart updates -/

theorem mul_1e3 (a : ℚ) : a * 1e3 = 1000 * a := by
  norm_num
  ring

theorem assignY_of_xs (f : ℚ → ℚ) (ps : List Point) (xs : List ℚ)
    (h : ps.map (fun p => p.x) = xs) :
    assignY ps (xs.map f) = ps.map (fun p => (⟨p.x, some (f p.x)⟩ : Point)) := by
  rw [← h]
  exact assignY_map f ps

theorem initCharts_xs (P : PlotParams) (Vgs0 Vds0 : ℚ) :
    (initCharts P Vgs0 Vds0).chart_IdVgs.envelope.map (fun p => p.x) = VGS ∧
    (initCharts P Vgs0 Vds0).chart_IdVds.boundary.map (fun p => p.x) = VDS ∧
    (initCharts P Vgs0 Vds0).chart_IdVds.curve.map (fun p => p.x) = VDS := by
  unfold initCharts
  simp only [mapXY_map, List.map_map, Function.comp_def, List.map_id']
  exact ⟨trivial, trivial, trivial⟩

theorem refreshAllPlots_base (P : PlotParams) (Vgs Vds : ℚ) (c : Charts)
    (h1 : c.chart_IdVgs.envelope.map (fun p => p.x) = VGS)
    (h2 : c.chart_IdVds.boundary.map (fun p => p.x) = VDS)
    (h3 : c.chart_IdVds.curve.map (fun p => p.x) = VDS) :
    (refreshAllPlots P Vgs Vds c).chart_IdVgs.envelope.map (fun p => p.x) = VGS ∧
    (refreshAllPlots P Vgs Vds c).chart_IdVds.boundary.map (fun p => p.x) = VDS ∧
    (refreshAllPlots P Vgs Vds c).chart_IdVds.curve.map (fun p => p.x) = VDS ∧
    (∀ p ∈ (refreshAllPlots P Vgs Vds c).chart_IdVgs.envelope,
      p.y = some (1000 * 0.5 * P.K * (max (p.x - Plot_Vth) 0) ^ 2)) ∧
    (∀ p ∈ (refreshAllPlots P Vgs Vds c).chart_IdVds.boundary,
      p.y = some (1000 * 0.5 * P.K * p.x ^ 2)) := by
  unfold refreshAllPlots
  simp only
  refine ⟨?_, ?_, ?_, ?_, ?_⟩
  · rw [assignY_xs, h1]
  · rw [assignY_xs, h2]
  · rw [assignY_xs, h3]
  · intro p hp
    rw [assignY_of_xs _ _ _ h1] at hp
    rw [mem_map_point_y (fun v => 0.5 * P.K * (max (v - Plot_Vth) 0) ^ 2 * 1e3) _ _ hp, mul_1e3]
    congr 1
    ring
  · intro p hp
    rw [assignY_of_xs _ _ _ h2] at hp
    rw [mem_map_point_y (fun v => 0.5 * P.K * v * v * 1e3) _ _ hp, mul_1e3]
    congr 1
    ring

theorem updateCharts_redraw (P : PlotParams) (Vgs Vds : ℚ) (evt : Option String) (c : Charts)
    (he : evt ≠ some "vdsSlider")
    (h1 : c.chart_IdVgs.envelope.map (fun p => p.x) = VGS)
    (h2 : c.chart_IdVds.boundary.map (fun p => p.x) = VDS)
    (h3 : c.chart_IdVds.curve.map (fun p => p.x) = VDS)
    (h4 : ∀ p ∈ c.chart_IdVgs.envelope,
      p.y = some (1000 * 0.5 * P.K * (max (p.x - Plot_Vth) 0) ^ 2))
    (h5 : ∀ p ∈ c.chart_IdVds.boundary, p.y = some (1000 * 0.5 * P.K * p.x ^ 2)) :
    ChartsOK P Vgs Vds (updateCharts P Vgs Vds evt c) := by
  unfold ChartsOK updateCharts
  simp only [if_neg he]
  have hx : c.chart_IdVds.curve.map (fun p => p.x)
      = c.chart_IdVds.boundary.map (fun p => p.x) := by rw [h2, h3]
  refine ⟨h1, h2, ?_, h4, h5, ?_, ?_⟩
  · rw [assignY_xs, h3]
  · intro p hp
    rw [assignY_of_xs _ _ _ hx] at hp
    rw [mem_map_point_y (fun v => Id P.K P.lambda Vgs v * 1e3) _ _ hp, mul_1e3]
  · rw [mul_1e3]

theorem updateCharts_marker_only (P : PlotParams) (Vgs Vds Vds0 : ℚ) (c : Charts)
    (h : ChartsOK P Vgs Vds0 c) :
    ChartsOK P Vgs Vds (updateCharts P Vgs Vds (some "vdsSlider") c) := by
  obtain ⟨h1, h2, h3, h4, h5, h6, _⟩ := h
  unfold ChartsOK updateCharts
  rw [if_pos rfl]
  refine ⟨h1, h2, h3, h4, h5, h6, ?_⟩
  simp only [mul_1e3]

theorem onLoad_consistent (vgs vds : ℚ) (lenChecked widthChecked : Bool) (ch_box : Option Box) :
    ChartsConsistent (onLoad vgs vds lenChecked widthChecked ch_box) := by
  obtain ⟨h1, h2, h3⟩ := initCharts_xs
    (updatePlotParameters (if lenChecked then 0 else 1) (if widthChecked then 1 else 0)) vgs vds
  obtain ⟨g1, g2, g3, g4, g5⟩ := refreshAllPlots_base _ vgs vds _ h1 h2 h3
  exact ⟨rfl, updateCharts_redraw _ vgs vds none _ (by simp) g1 g2 g3 g4 g5⟩

theorem step_consistent (s : Page) (e : Event) (h : ChartsConsistent s) :
    ChartsConsistent (step s e) := by
  obtain ⟨hp, hc⟩ := h
  cases e with
  | vgsInput v =>
    obtain ⟨h1, h2, h3, h4, h5, _, _⟩ := hc
    exact ⟨hp, updateCharts_redraw s.plot v s.vds (some "vgsSlider") s.charts (by decide)
      h1 h2 h3 h4 h5⟩
  | vdsInput v =>
    exact ⟨hp, updateCharts_marker_only s.plot s.vgs v s.vds s.charts hc⟩
  | lenToggle =>
    obtain ⟨h1, h2, h3, _, _, _, _⟩ := hc
    obtain ⟨g1, g2, g3, g4, g5⟩ := refreshAllPlots_base
      (updatePlotParameters (if (!s.lenChecked) then 0 else 1) (if s.widthChecked then 1 else 0))
      s.vgs s.vds s.charts h1 h2 h3
    exact ⟨rfl, updateCharts_redraw _ s.vgs s.vds none _ (by simp) g1 g2 g3 g4 g5⟩
  | widthToggle =>
    obtain ⟨h1, h2, h3, _, _, _, _⟩ := hc
    obtain ⟨g1, g2, g3, g4, g5⟩ := refreshAllPlots_base
      (updatePlotParameters (if s.lenChecked then 0 else 1) (if (!s.widthChecked) then 1 else 0))
      s.vgs s.vds s.charts h1 h2 h3
    exact ⟨rfl, updateCharts_redraw _ s.vgs s.vds none _ (by simp) g1 g2 g3 g4 g5⟩

theorem run_consistent (events : List Event) (s : Page) (h : ChartsConsistent s) :
    ChartsConsistent (run s events) := by
  induction events generalizing s with
  | nil => exact h
  | cons e es ih => exact ih (step s e) (step_consistent s e h)

/-- C6: in the page produced by initialisation and after every sequence of
events (Vgs slider input, Vds slider input, length toggle, width toggle), with
`Vgs`, `Vds` the current slider values and `K`, `lambda` the current plot
parameters (those of the current switch setting): every sample of the Id-Vds
curve has `y = 1000 * Id(Vgs, x)`, the Vds marker is `(Vds, 1000 * Id(Vgs, Vds))`,
every sample of the envelope has `y = 1000 * 0.5 * K * max(x - Vth, 0)^2` and
every sample of the saturation boundary has `y = 1000 * 0.5 * K * x^2`; each of
the three series has 301 samples. -/
theorem charts_consistent_after_events (vgs vds : ℚ) (lenChecked widthChecked : Bool)
    (ch_box : Option Box) (events : List Event) :
    ChartsConsistent (run (onLoad vgs vds lenChecked widthChecked ch_box) events) ∧
    (run (onLoad vgs vds lenChecked widthChecked ch_box) events).charts.chart_IdVds.curve.length
      = 301 ∧
    (run (onLoad vgs vds lenChecked widthChecked ch_box) events).charts.chart_IdVds.boundary.length
      = 301 ∧
    (run (onLoad vgs vds lenChecked widthChecked ch_box) events).charts.chart_IdVgs.envelope.length
      = 301 := by
  have h := run_consistent events _ (onLoad_consistent vgs vds lenChecked widthChecked ch_box)
  have hl : VGS.length = 301 := by simp [VGS]
  have hd : VDS.length = 301 := by simp [VDS]
  obtain ⟨_, h1, h2, h3, _⟩ := id h
  refine ⟨h, ?_, ?_, ?_⟩
  · rw [← hd, ← h3, List.length_map]
  · rw [← hd, ← h2, List.length_map]
  · rw [← hl, ← h1, List.length_map]

end Mosfet
